import Mathlib

/-
Verification of the transaction-classification and address-aggregation core of
solana-tools (solana-wallet-analyzer/get_related_wallets.js), shallowly embedded
in Lean. Field accesses through optional chaining in the source are modelled with
Option; a field access on an absent (undefined) object that the source performs
without a guard is modelled as a raised TypeError via Except. JavaScript string
truthiness (the empty string is falsy) and number truthiness (zero is falsy) are
modelled explicitly where the source relies on them. Amounts are modelled as
rationals, so division by 1e9 is exact.
-/

namespace SolanaTools

/-- The info sub-object of a parsed instruction: parsed.info in the source. -/
structure ParsedInfo where
  source : Option String := none
  destination : Option String := none
  lamports : Option ℚ := none
deriving DecidableEq

/-- The parsed sub-object of an instruction: ix.parsed in the source. -/
structure ParsedField where
  type : Option String := none
  info : Option ParsedInfo := none
deriving DecidableEq

/-- A top-level or inner instruction of a parsed transaction. programId is kept
as its string rendering, matching the ix.programId?.toString() comparisons of
the source; program is the ix.program field used for inner instructions. -/
structure Instruction where
  programId : Option String := none
  parsed : Option ParsedField := none
  program : Option String := none
deriving DecidableEq

/-- The message of a parsed transaction. The source reads message.instructions
without a guard, so the field is optional here and its absence raises. -/
structure Message where
  instructions : Option (List Instruction) := none
deriving DecidableEq

/-- One group of inner instructions in transaction.meta.innerInstructions. -/
structure InnerGroup where
  instructions : Option (List Instruction) := none
deriving DecidableEq

/-- The meta object of a parsed transaction. Token-balance entries are opaque:
only the lengths of the lists are inspected by the source. -/
structure TransactionMeta where
  preTokenBalances : Option (List Unit) := none
  postTokenBalances : Option (List Unit) := none
  logMessages : Option (List String) := none
  innerInstructions : Option (List InnerGroup) := none
deriving DecidableEq

/-- The inner transaction object: transaction.transaction in the source. -/
structure TxInner where
  message : Option Message := none
deriving DecidableEq

/-- The outer parsed transaction object handed to the classifier. -/
structure ParsedTransaction where
  transaction : Option TxInner := none
  meta : Option TransactionMeta := none
deriving DecidableEq

/-- A counterparty entry of a classification result. -/
structure RelatedAddress where
  address : String
  direction : String
deriving DecidableEq

/-- The details free-form record of a classification result. -/
structure Details where
  source : Option String := none
  destination : Option String := none
  amount : Option ℚ := none
deriving DecidableEq

/-- The result structure built by determineTransactionType. -/
structure ClassificationResult where
  type : String
  relatedAddresses : List RelatedAddress
  details : Details
deriving DecidableEq

/-- A JavaScript runtime error: reading a property of undefined. -/
inductive JsError where
  | typeError
deriving DecidableEq

/-- The default result: type unknown, no related addresses, empty details. -/
def defaultResult : ClassificationResult :=
  { type := "unknown", relatedAddresses := [], details := {} }

def SYSTEM_PROGRAM : String := "11111111111111111111111111111111"

def TOKEN_PROGRAM : String := "TokenkegQfeZyiNwAJbNbGKPFXCWuBvf9Ss623VQ5DA"

def COMPUTE_BUDGET_PROGRAM : String := "ComputeBudget111111111111111111111111111111"

/-- The fixed allowlist of known DeFi/swap program identifiers. -/
def knownSwapPrograms : List String :=
  ["JUP6LkbZbjS1jKKwapdHNy74zcZ3tLUZoi5QNyVTaV4",
   "SwaPpA9LAaLfeLi3a68M4DjnLqgtticKg6CnyNwgAC8",
   "9W959DqEETiGZocYWCQPaJ6sBmUzgfxXfqGeTEdp3aQP",
   "CPMMoo8L3F4NbTegBCKVNunggL7H1ZpdTHKxQB5qKP1C",
   "6EF8rrecthR5Dkzon8Nwu78hRvfCKubJ14M5uBEwF6P"]

/-- The optional-chained parsed type of an instruction: ix.parsed?.type. -/
def parsedType (ix : Instruction) : Option String :=
  ix.parsed.bind fun p => p.type

/-- The optional-chained source of an instruction: ix.parsed?.info?.source. -/
def instructionSource (ix : Instruction) : Option String :=
  (ix.parsed.bind fun p => p.info).bind fun i => i.source

/-- The optional-chained destination: ix.parsed?.info?.destination. -/
def instructionDestination (ix : Instruction) : Option String :=
  (ix.parsed.bind fun p => p.info).bind fun i => i.destination

/-- The optional-chained lamports amount: ix.parsed?.info?.lamports. -/
def instructionLamports (ix : Instruction) : Option ℚ :=
  (ix.parsed.bind fun p => p.info).bind fun i => i.lamports

/-- ix.programId?.toString() === ComputeBudget111... -/
def isComputeBudgetIx (ix : Instruction) : Bool :=
  ix.programId == some COMPUTE_BUDGET_PROGRAM

/-- ix.programId?.toString() === SYSTEM_PROGRAM && ix.parsed?.type === advanceNonce. -/
def isNonceAdvanceIx (ix : Instruction) : Bool :=
  ix.programId == some SYSTEM_PROGRAM && parsedType ix == some "advanceNonce"

/-- ix.programId?.toString() === SYSTEM_PROGRAM && ix.parsed?.type === transfer. -/
def isSystemTransferIx (ix : Instruction) : Bool :=
  ix.programId == some SYSTEM_PROGRAM && parsedType ix == some "transfer"

/-- The guard of the simple-SOL-transfer rule: one single instruction, or at
most four instructions among which a compute-budget or a nonce-advance
instruction appears. -/
def nativeTransferGuard (instructions : List Instruction) : Bool :=
  instructions.length == 1 ||
    (decide (instructions.length ≤ 4) &&
      (instructions.any isComputeBudgetIx || instructions.any isNonceAdvanceIx))

/-- transaction.meta && (preTokenBalances?.length > 0 || postTokenBalances?.length > 0);
optional chaining on an absent list yields undefined, and undefined > 0 is false. -/
def hasTokenBalanceChanges (meta : Option TransactionMeta) : Bool :=
  match meta with
  | none => false
  | some m =>
    (match m.preTokenBalances with
     | none => false
     | some l => decide (0 < l.length)) ||
    (match m.postTokenBalances with
     | none => false
     | some l => decide (0 < l.length))

/-- JavaScript truthiness of an optional string: undefined and the empty
string are falsy. -/
def jsTruthyStr : Option String → Bool
  | none => false
  | some s => !(s == "")

/-- amount ? amount / 1e9 : null, with JavaScript number truthiness: an
absent or zero lamports value yields null. -/
def jsAmount : Option ℚ → Option ℚ
  | none => none
  | some a => if a == 0 then none else some (a / 1000000000)

/-- The relatedAddresses produced for a simple transfer: only when both the
parsed source and destination are truthy, the counterparty is recorded with a
direction relative to the query address. -/
def transferRelated (source destination : Option String) (sourceAddressStr : String) :
    List RelatedAddress :=
  if jsTruthyStr source && jsTruthyStr destination then
    match source, destination with
    | some s, some d =>
      if s == sourceAddressStr then [{ address := d, direction := "sent" }]
      else if d == sourceAddressStr then [{ address := s, direction := "received" }]
      else []
    | _, _ => []
  else []

/-- The full result built for a simple transfer from the located transfer
instruction: type transfer, details with source, destination and converted
amount, and the counterparty entry. -/
def transferResult (transferIx : Instruction) (sourceAddressStr : String) :
    ClassificationResult :=
  { type := "transfer"
    relatedAddresses :=
      transferRelated (instructionSource transferIx) (instructionDestination transferIx)
        sourceAddressStr
    details :=
      { source := instructionSource transferIx
        destination := instructionDestination transferIx
        amount := jsAmount (instructionLamports transferIx) } }

/-- Top-level token-program transfer: programId is the token program and the
parsed type is transfer or transferChecked. -/
def isTokenTransferIx (ix : Instruction) : Bool :=
  ix.programId == some TOKEN_PROGRAM &&
    (parsedType ix == some "transfer" || parsedType ix == some "transferChecked")

/-- knownSwapPrograms.includes(ix.programId?.toString()); includes of
undefined is false. -/
def isSwapProgramIx (ix : Instruction) : Bool :=
  match ix.programId with
  | none => false
  | some p => knownSwapPrograms.contains p

/-- Lowercasing as used on the joined log text, character by character. -/
def lowerStr (s : String) : String := String.mk (s.data.map Char.toLower)

/-- JavaScript String.prototype.includes, as a substring test. -/
def strIncludes (haystack needle : String) : Bool :=
  decide (needle.data <:+: haystack.data)

/-- The five swap-related keywords of the log fallback. -/
def swapKeywords : List String := ["swap", "exchange", "trade", "buy", "sell"]

/-- logMessages.join(' ').toLowerCase() contains one of the keywords. The
lines are joined with a single space separator before the search. -/
def logMessagesHit (logs : List String) : Bool :=
  let joined := lowerStr (String.intercalate " " logs)
  swapKeywords.any fun k => strIncludes joined k

/-- An inner instruction that signals a swap: a token-program transfer
attributed to the spl-token interpreter, or any swap-allowlist program. -/
def isInnerSwapIx (ix : Instruction) : Bool :=
  (ix.programId == some TOKEN_PROGRAM &&
    (ix.program == some "spl-token" &&
      (parsedType ix == some "transfer" || parsedType ix == some "transferChecked"))) ||
  isSwapProgramIx ix

/-- The loop over meta.innerInstructions: each group has its instructions list
read without a guard, so an absent list raises a TypeError. -/
def innerSwapCheck : List InnerGroup → Except JsError Bool
  | [] => .ok false
  | g :: rest =>
    match g.instructions with
    | none => .error .typeError
    | some ixs => if ixs.any isInnerSwapIx then .ok true else innerSwapCheck rest

/-- The classification stages after the simple-transfer rule: token transfer
versus swap by allowlist, direct swap-program invocation, log-keyword
fallback, then the inner-instruction fallback. -/
def classifyRest (tx : ParsedTransaction) (instructions : List Instruction) :
    Except JsError ClassificationResult :=
  if instructions.any isTokenTransferIx then
    if instructions.any isSwapProgramIx then .ok { defaultResult with type := "swap" }
    else .ok { defaultResult with type := "token_transfer" }
  else if instructions.any isSwapProgramIx then
    .ok { defaultResult with type := "swap" }
  else
    let logHit :=
      match tx.meta with
      | none => false
      | some m =>
        match m.logMessages with
        | none => false
        | some logs => logMessagesHit logs
    if logHit then .ok { defaultResult with type := "swap" }
    else
      match tx.meta with
      | none => .ok defaultResult
      | some m =>
        match m.innerInstructions with
        | none => .ok defaultResult
        | some groups =>
          match innerSwapCheck groups with
          | .error e => .error e
          | .ok true => .ok { defaultResult with type := "swap" }
          | .ok false => .ok defaultResult

/-- determineTransactionType of the source. A missing transaction, inner
transaction object or message returns the default result; a present message
whose instructions list is absent raises when instructions.length is read. -/
def determineTransactionType (transaction : Option ParsedTransaction)
    (sourceAddress : String) : Except JsError ClassificationResult :=
  match transaction with
  | none => .ok defaultResult
  | some tx =>
    match tx.transaction with
    | none => .ok defaultResult
    | some innerTx =>
      match innerTx.message with
      | none => .ok defaultResult
      | some message =>
        match message.instructions with
        | none => .error .typeError
        | some instructions =>
          if nativeTransferGuard instructions then
            match instructions.find? isSystemTransferIx with
            | some transferIx =>
              if hasTokenBalanceChanges tx.meta then classifyRest tx instructions
              else .ok (transferResult transferIx sourceAddress)
            | none => classifyRest tx instructions
          else classifyRest tx instructions

/-- Per-address sent/received tallies of the ledger. -/
structure AddrCounts where
  sent : Nat
  received : Nat
deriving DecidableEq

/-- The address ledger: an insertion-ordered map, as a JavaScript Map is. -/
def Ledger : Type := List (String × AddrCounts)

/-- relatedAddressMap.get. -/
def mapGet (m : Ledger) (k : String) : Option AddrCounts :=
  (List.find? (fun p => p.1 == k) m).map fun p => p.2

/-- relatedAddressMap.set: replace in place when the key is present, append
otherwise, preserving insertion order. -/
def mapSet (m : Ledger) (k : String) (v : AddrCounts) : Ledger :=
  match m with
  | [] => [(k, v)]
  | (k2, v2) :: rest =>
    if k2 == k then (k, v) :: rest else (k2, v2) :: mapSet rest k v

/-- The aggregation loop of main: for each related address, read the current
tallies or a zeroed record, increment the counter named by the direction tag
(any other tag increments nothing), and store the record back. -/
def foldRelated (ledger : Ledger) (relatedAddresses : List RelatedAddress) : Ledger :=
  relatedAddresses.foldl
    (fun led addrInfo =>
      let addrData := (mapGet led addrInfo.address).getD { sent := 0, received := 0 }
      let addrData2 :=
        if addrInfo.direction == "sent" then { addrData with sent := addrData.sent + 1 }
        else if addrInfo.direction == "received" then
          { addrData with received := addrData.received + 1 }
        else addrData
      mapSet led addrInfo.address addrData2)
    ledger

/- Concrete example values used to instantiate the theorems below. -/

/-- A system-program transfer instruction whose source and destination are both
the address A: a self transfer. -/
def selfTransferIx : Instruction :=
  { programId := some SYSTEM_PROGRAM
    parsed := some { type := some "transfer"
                     info := some { source := some "A", destination := some "A",
                                    lamports := none } }
    program := none }

/-- A one-instruction transaction holding only the self transfer. -/
def selfTransferTx : ParsedTransaction :=
  { transaction := some { message := some { instructions := some [selfTransferIx] } }
    meta := none }

/-- The classification the source produces for the self transfer queried as A. -/
def selfTransferExpected : ClassificationResult :=
  { type := "transfer"
    relatedAddresses := [{ address := "A", direction := "sent" }]
    details := { source := some "A", destination := some "A", amount := none } }

/-- A transaction whose message is present but whose instructions list is absent. -/
def noInstructionsTx : ParsedTransaction :=
  { transaction := some { message := some { instructions := none } }, meta := none }

/-- A well-formed transaction with an empty instructions list and no meta. -/
def emptyInstrTx : ParsedTransaction :=
  { transaction := some { message := some { instructions := some [] } }, meta := none }

/-- A compute-budget instruction. -/
def cbIx : Instruction :=
  { programId := some COMPUTE_BUDGET_PROGRAM, parsed := none, program := none }

/-- A native transfer instruction from A to B of one SOL. -/
def natTransferIx : Instruction :=
  { programId := some SYSTEM_PROGRAM
    parsed := some { type := some "transfer"
                     info := some { source := some "A", destination := some "B",
                                    lamports := some 1000000000 } }
    program := none }

/-- A two-instruction transaction: compute budget plus native transfer. -/
def natTransferTx : ParsedTransaction :=
  { transaction := some { message := some { instructions := some [cbIx, natTransferIx] } }
    meta := none }

/-- A token-program transferChecked instruction. -/
def tokenTransferIxEx : Instruction :=
  { programId := some TOKEN_PROGRAM
    parsed := some { type := some "transferChecked", info := none }
    program := none }

/-- An instruction invoking the Jupiter program of the swap allowlist. -/
def jupiterIxEx : Instruction :=
  { programId := some "JUP6LkbZbjS1jKKwapdHNy74zcZ3tLUZoi5QNyVTaV4"
    parsed := none
    program := none }

/-- A transaction holding a token transfer next to a swap-allowlist call. -/
def tokenSwapTx : ParsedTransaction :=
  { transaction := some { message := some { instructions := some [tokenTransferIxEx, jupiterIxEx] } }
    meta := none }

/-- A native transfer instruction carrying zero lamports. -/
def zeroLamportsIx : Instruction :=
  { programId := some SYSTEM_PROGRAM
    parsed := some { type := some "transfer"
                     info := some { source := some "A", destination := some "B",
                                    lamports := some 0 } }
    program := none }

/-- A one-instruction transaction holding the zero-lamports transfer. -/
def zeroLamportsTx : ParsedTransaction :=
  { transaction := some { message := some { instructions := some [zeroLamportsIx] } }
    meta := none }

/-- A one-instruction transaction holding the one-SOL transfer. -/
def oneSolTx : ParsedTransaction :=
  { transaction := some { message := some { instructions := some [natTransferIx] } }
    meta := none }

/-- A transaction whose log lines spell a swap keyword across a line boundary. -/
def boundaryLogTx : ParsedTransaction :=
  { transaction := some { message := some { instructions := some [] } }
    meta := some { preTokenBalances := none, postTokenBalances := none,
                   logMessages := some ["sw", "ap"], innerInstructions := none } }

/-- A transaction whose log lines mention a swap keyword inside one line. -/
def swapLogTx : ParsedTransaction :=
  { transaction := some { message := some { instructions := some [] } }
    meta := some { preTokenBalances := none, postTokenBalances := none,
                   logMessages := some ["Program log: Swap executed"],
                   innerInstructions := none } }

/-- A native transfer instruction whose destination field is absent. -/
def partialIx : Instruction :=
  { programId := some SYSTEM_PROGRAM
    parsed := some { type := some "transfer"
                     info := some { source := some "A", destination := none,
                                    lamports := none } }
    program := none }

/-- A one-instruction transaction holding the partial transfer. -/
def partialTx : ParsedTransaction :=
  { transaction := some { message := some { instructions := some [partialIx] } }
    meta := none }

/-- The well-formedness condition under which the classifier cannot raise: the
message, when reached, carries an instructions list, and every inner group
carries an instructions list. These are exactly the two unguarded list reads
of the source. -/
def instructionListsPresent (t : Option ParsedTransaction) : Prop :=
  ∀ tx, t = some tx →
    (∀ innerTx msg, tx.transaction = some innerTx → innerTx.message = some msg →
      msg.instructions ≠ none) ∧
    (∀ m groups g, tx.meta = some m → m.innerInstructions = some groups →
      g ∈ groups → g.instructions ≠ none)

/- Ledger lemmas. -/

theorem mapGet_mapSet_self (m : Ledger) (k : String) (v : AddrCounts) :
    mapGet (mapSet m k v) k = some v := by
  induction m with
  | nil => simp [mapGet, mapSet, List.find?]
  | cons p rest ih =>
    obtain ⟨k2, v2⟩ := p
    by_cases h : k2 = k
    · subst h
      simp [mapGet, mapSet, List.find?]
    · have hb : (k2 == k) = false := beq_eq_false_iff_ne.mpr h
      simp only [mapSet, hb, if_false, Bool.false_eq_true]
      simpa [mapGet, List.find?, hb] using ih

theorem mapGet_mapSet_ne (m : Ledger) (k k2 : String) (v : AddrCounts) (h : k2 ≠ k) :
    mapGet (mapSet m k v) k2 = mapGet m k2 := by
  induction m with
  | nil =>
    have hb : (k == k2) = false := beq_eq_false_iff_ne.mpr (Ne.symm h)
    simp [mapGet, mapSet, List.find?, hb]
  | cons p rest ih =>
    obtain ⟨ka, va⟩ := p
    by_cases hka : ka = k
    · subst hka
      have hb2 : (ka == k2) = false := beq_eq_false_iff_ne.mpr (Ne.symm h)
      simp [mapGet, mapSet, List.find?, beq_self_eq_true, hb2]
    · have hb : (ka == k) = false := beq_eq_false_iff_ne.mpr hka
      by_cases hk2 : ka = k2
      · subst hk2
        simp [mapGet, mapSet, List.find?, hb, beq_self_eq_true]
      · have hb2 : (ka == k2) = false := beq_eq_false_iff_ne.mpr hk2
        simpa [mapGet, mapSet, List.find?, hb, hb2] using ih

theorem foldRelated_sent_step (L : Ledger) (x : String) (s r : Nat)
    (h : mapGet L x = some { sent := s, received := r }) :
    foldRelated L [{ address := x, direction := "sent" }] =
      mapSet L x { sent := s + 1, received := r } := by
  simp [foldRelated, h]

theorem foldRelated_sent_iterate (x : String) (n : Nat) :
    ∀ (L : Ledger) (s r : Nat), mapGet L x = some { sent := s, received := r } →
      mapGet ((fun led => foldRelated led [{ address := x, direction := "sent" }])^[n] L) x =
        some { sent := s + n, received := r } := by
  induction n with
  | zero => intro L s r h; simpa using h
  | succ n ih =>
    intro L s r h
    rw [Function.iterate_succ_apply]
    have hstep := foldRelated_sent_step L x s r h
    rw [hstep]
    have := ih (mapSet L x { sent := s + 1, received := r }) (s + 1) r
      (mapGet_mapSet_self L x _)
    rw [this]
    congr 2
    omega

theorem foldRelated_sent_iterate_other (x y : String) (hxy : y ≠ x) (n : Nat) :
    ∀ L : Ledger,
      mapGet ((fun led => foldRelated led [{ address := x, direction := "sent" }])^[n] L) y =
        mapGet L y := by
  induction n with
  | zero => intro L; simp
  | succ n ih =>
    intro L
    rw [Function.iterate_succ_apply, ih]
    simp only [foldRelated, List.foldl]
    exact mapGet_mapSet_ne L x y _ hxy

/-- Claim C3: the spec requires the aggregator to reject a malformed direction
tag with an invalid-input error; the source instead completes the fold
normally, silently ignoring the tag and even inserting a zeroed entry for the
address. This theorem evaluates the fold at the failing input. -/
theorem c3_malformed_direction_silently_ignored :
    foldRelated [] [{ address := "X", direction := "neither" }] =
      [("X", { sent := 0, received := 0 })] := by rfl

/-- Claim C7: folding the pair of an address X tagged sent N times into a
ledger where X is absent yields a sent count of N and a received count of 0
for X, leaves every other address unchanged, and a single fold on an absent
address initializes a zeroed entry and increments exactly the counter named
by the direction tag. -/
theorem c7_fold_sent_count (L : Ledger) (x : String) (n : Nat)
    (h : mapGet L x = none) (hn : 0 < n) :
    mapGet ((fun led => foldRelated led [{ address := x, direction := "sent" }])^[n] L) x =
      some { sent := n, received := 0 } ∧
    (∀ y, y ≠ x →
      mapGet ((fun led => foldRelated led [{ address := x, direction := "sent" }])^[n] L) y =
        mapGet L y) ∧
    (∀ (L2 : Ledger) (a : String), mapGet L2 a = none →
      foldRelated L2 [{ address := a, direction := "sent" }] =
        mapSet L2 a { sent := 1, received := 0 } ∧
      foldRelated L2 [{ address := a, direction := "received" }] =
        mapSet L2 a { sent := 0, received := 1 }) := by
  refine ⟨?_, ?_, ?_⟩
  · obtain ⟨m, rfl⟩ : ∃ m, n = m + 1 := ⟨n - 1, by omega⟩
    rw [Function.iterate_succ_apply]
    have hstep : foldRelated L [{ address := x, direction := "sent" }] =
        mapSet L x { sent := 1, received := 0 } := by
      simp [foldRelated, h]
    rw [hstep]
    have := foldRelated_sent_iterate x m (mapSet L x { sent := 1, received := 0 }) 1 0
      (mapGet_mapSet_self L x _)
    rw [this]
    congr 2
    omega
  · intro y hy
    exact foldRelated_sent_iterate_other x y hy n L
  · intro L2 a ha
    constructor
    · simp [foldRelated, ha]
    · simp [foldRelated, ha]

/-- Witness for C7 at a concrete input: three folds of X starting from the
empty ledger. -/
theorem c7_fold_sent_count_witness :
    mapGet [] "X" = none ∧ 0 < 3 ∧
    (mapGet ((fun led => foldRelated led [{ address := "X", direction := "sent" }])^[3] []) "X" =
      some { sent := 3, received := 0 } ∧
    (∀ y, y ≠ "X" →
      mapGet ((fun led => foldRelated led [{ address := "X", direction := "sent" }])^[3] []) y =
        mapGet [] y) ∧
    (∀ (L2 : Ledger) (a : String), mapGet L2 a = none →
      foldRelated L2 [{ address := a, direction := "sent" }] =
        mapSet L2 a { sent := 1, received := 0 } ∧
      foldRelated L2 [{ address := a, direction := "received" }] =
        mapSet L2 a { sent := 0, received := 1 })) :=
  ⟨rfl, by decide, c7_fold_sent_count [] "X" 3 rfl (by decide)⟩

/- Classifier path lemmas. -/

theorem determine_transfer_branch (tx : ParsedTransaction) (innerTx : TxInner)
    (msg : Message) (instrs : List Instruction) (ix : Instruction) (q : String)
    (h1 : tx.transaction = some innerTx) (h2 : innerTx.message = some msg)
    (h3 : msg.instructions = some instrs)
    (h4 : nativeTransferGuard instrs = true)
    (h5 : instrs.find? isSystemTransferIx = some ix)
    (h8 : hasTokenBalanceChanges tx.meta = false) :
    determineTransactionType (some tx) q = .ok (transferResult ix q) := by
  simp [determineTransactionType, h1, h2, h3, h4, h5, h8]

theorem determine_reaches_rest (tx : ParsedTransaction) (innerTx : TxInner)
    (msg : Message) (instrs : List Instruction) (q : String)
    (h1 : tx.transaction = some innerTx) (h2 : innerTx.message = some msg)
    (h3 : msg.instructions = some instrs)
    (h4 : ¬(nativeTransferGuard instrs = true ∧
            (instrs.find? isSystemTransferIx).isSome = true ∧
            hasTokenBalanceChanges tx.meta = false)) :
    determineTransactionType (some tx) q = classifyRest tx instrs := by
  simp only [determineTransactionType, h1, h2, h3]
  by_cases hg : nativeTransferGuard instrs = true
  · rw [if_pos hg]
    cases hf : instrs.find? isSystemTransferIx with
    | none => rfl
    | some ix =>
      have hbal : hasTokenBalanceChanges tx.meta = true := by
        rcases Bool.eq_false_or_eq_true (hasTokenBalanceChanges tx.meta) with hb | hb
        · exact hb
        · exact absurd ⟨hg, by simp [hf], hb⟩ h4
      simp [hbal]
  · rw [if_neg hg]

theorem classifyRest_related (tx : ParsedTransaction) (instructions : List Instruction)
    (r : ClassificationResult) (h : classifyRest tx instructions = .ok r) :
    r.relatedAddresses = [] := by
  simp only [classifyRest] at h
  repeat' split at h
  all_goals first | (cases h; rfl) | cases h

theorem determine_shape (t : Option ParsedTransaction) (a : String)
    (r : ClassificationResult) (h : determineTransactionType t a = .ok r) :
    r.relatedAddresses = [] ∨ ∃ ix, r = transferResult ix a := by
  unfold determineTransactionType at h
  repeat' split at h
  all_goals
    first
      | exact Or.inl (classifyRest_related _ _ _ h)
      | ((cases h) <;> (first | exact Or.inr ⟨_, rfl⟩ | exact Or.inl rfl))

theorem transferRelated_length (s d : Option String) (a : String) :
    (transferRelated s d a).length ≤ 1 := by
  unfold transferRelated
  split
  · split
    · split
      · simp
      · split
        · simp
        · simp
    · simp
  · simp

theorem transferRelated_self (s d : Option String) (a : String) (e : RelatedAddress)
    (he : e ∈ transferRelated s d a) (ha : e.address = a) :
    e.direction = "sent" ∧ s = some a ∧ d = some a := by
  cases s with
  | none => simp [transferRelated, jsTruthyStr] at he
  | some s1 =>
    cases d with
    | none => simp [transferRelated, jsTruthyStr] at he
    | some d1 =>
      simp only [transferRelated] at he
      split at he
      · by_cases hsa : s1 = a
        · simp [hsa] at he
          subst he
          refine ⟨rfl, by rw [hsa], ?_⟩
          have hd1 : d1 = a := by simpa using ha
          rw [hd1]
        · by_cases hda : d1 = a
          · simp [hsa, hda] at he
            subst he
            exact absurd (by simpa using ha) hsa
          · simp [hsa, hda] at he
      · simp at he

/-- Claim C1 (amended): a transaction classified as transfer carries 0 or 1
related address, and any other classification carries none; however the entry
can be the query address itself, exactly when the located transfer has the
query address as both its parsed source and destination (a self transfer),
in which case the direction is sent. -/
theorem c1_transfer_related_invariant (t : Option ParsedTransaction) (a : String)
    (r : ClassificationResult) (h : determineTransactionType t a = .ok r) :
    r.relatedAddresses.length ≤ 1 ∧
    (r.type ≠ "transfer" → r.relatedAddresses = []) ∧
    (∀ e ∈ r.relatedAddresses, e.address = a →
      e.direction = "sent" ∧
      ∃ ix, r = transferResult ix a ∧
        instructionSource ix = some a ∧ instructionDestination ix = some a) := by
  rcases determine_shape t a r h with hrel | ⟨ix, rfl⟩
  · exact ⟨by simp [hrel], fun _ => hrel, by simp [hrel]⟩
  · refine ⟨transferRelated_length _ _ _, fun ht => absurd rfl ht, ?_⟩
    intro e he ha
    obtain ⟨hd, hs, hdst⟩ := transferRelated_self _ _ _ e he ha
    exact ⟨hd, ix, rfl, hs, hdst⟩

/-- Witness for C1 at the self-transfer input. -/
theorem c1_transfer_related_invariant_witness :
    determineTransactionType (some selfTransferTx) "A" = .ok selfTransferExpected ∧
    (selfTransferExpected.relatedAddresses.length ≤ 1 ∧
     (selfTransferExpected.type ≠ "transfer" → selfTransferExpected.relatedAddresses = []) ∧
     (∀ e ∈ selfTransferExpected.relatedAddresses, e.address = "A" →
       e.direction = "sent" ∧
       ∃ ix, selfTransferExpected = transferResult ix "A" ∧
         instructionSource ix = some "A" ∧ instructionDestination ix = some "A")) :=
  ⟨rfl, c1_transfer_related_invariant (some selfTransferTx) "A" selfTransferExpected rfl⟩

/-- Counterexample to C1 as stated: for a self transfer whose parsed source
and destination both equal the query address A, the source records A itself
as a related address, contradicting that the entry is never the query
address. -/
theorem c1_counterexample :
    determineTransactionType (some selfTransferTx) "A" = .ok selfTransferExpected ∧
    selfTransferExpected.relatedAddresses = [{ address := "A", direction := "sent" }] := by
  exact ⟨rfl, rfl⟩

/- No-exception lemmas. -/

theorem innerSwapCheck_ok (groups : List InnerGroup)
    (h : ∀ g ∈ groups, g.instructions ≠ none) :
    ∃ b, innerSwapCheck groups = .ok b := by
  induction groups with
  | nil => exact ⟨false, rfl⟩
  | cons g rest ih =>
    cases hg : g.instructions with
    | none => exact absurd hg (h g (by simp))
    | some ixs =>
      simp only [innerSwapCheck, hg]
      split
      · exact ⟨true, rfl⟩
      · exact ih fun g2 hg2 => h g2 (by simp [hg2])

theorem classifyRest_ok (tx : ParsedTransaction) (instructions : List Instruction)
    (h : ∀ m groups g, tx.meta = some m → m.innerInstructions = some groups →
      g ∈ groups → g.instructions ≠ none) :
    ∃ r, classifyRest tx instructions = .ok r := by
  simp only [classifyRest]
  split
  · split
    · exact ⟨_, rfl⟩
    · exact ⟨_, rfl⟩
  · split
    · exact ⟨_, rfl⟩
    · split
      · exact ⟨_, rfl⟩
      · cases hm : tx.meta with
        | none => exact ⟨_, rfl⟩
        | some m =>
          cases hgi : m.innerInstructions with
          | none => simp [hm, hgi]
          | some groups =>
            obtain ⟨b, hb⟩ := innerSwapCheck_ok groups fun g hg => h m groups g hm hgi hg
            cases b <;> simp [hm, hgi, hb]

/-- Claim C2 (amended): the classifier raises no error on any input in which
the unguarded instructions lists are present: the message, when reached,
carries an instructions list, and every inner-instruction group carries one.
All other absent optional fields degrade to not-present. An input whose
message is present without an instructions list does raise, see the
counterexample. -/
theorem c2_no_exception (t : Option ParsedTransaction) (a : String)
    (h : instructionListsPresent t) :
    ∃ r, determineTransactionType t a = .ok r := by
  unfold determineTransactionType
  cases t with
  | none => exact ⟨_, rfl⟩
  | some tx =>
    obtain ⟨h1, h2⟩ := h tx rfl
    cases htx : tx.transaction with
    | none => simp [htx]
    | some innerTx =>
      cases hmsg : innerTx.message with
      | none => simp [htx, hmsg]
      | some msg =>
        cases hins : msg.instructions with
        | none => exact absurd hins (h1 innerTx msg htx hmsg)
        | some instructions =>
          simp only [htx, hmsg, hins]
          split
          · cases hf : instructions.find? isSystemTransferIx with
            | none => exact classifyRest_ok tx instructions h2
            | some ix =>
              split
              · split
                · exact classifyRest_ok tx instructions h2
                · exact ⟨_, rfl⟩
              · simp_all
          · exact classifyRest_ok tx instructions h2

/-- Witness for C2 at a well-formed input with an empty instructions list. -/
theorem c2_no_exception_witness :
    instructionListsPresent (some emptyInstrTx) ∧
    ∃ r, determineTransactionType (some emptyInstrTx) "A" = .ok r := by
  have hyp : instructionListsPresent (some emptyInstrTx) := by
    intro tx htx
    cases htx
    constructor
    · intro innerTx msg hin hmsg
      cases hin
      cases hmsg
      simp
    · intro m groups g hm
      cases hm
  exact ⟨hyp, c2_no_exception _ "A" hyp⟩

/-- Counterexample to C2 as stated: a transaction whose message is present
but carries no instructions list makes the source read length of undefined,
raising a TypeError instead of returning a classification. -/
theorem c2_counterexample :
    determineTransactionType (some noInstructionsTx) "A" = .error .typeError := by rfl

/-- Claim C4: when the transaction, its transaction field, or its message is
absent, the classifier returns type unknown with no related addresses and
empty details, raising no error. -/
theorem c4_degenerate_unknown (t : Option ParsedTransaction) (a : String)
    (h : t = none ∨ (∃ tx, t = some tx ∧ tx.transaction = none) ∨
      (∃ tx innerTx, t = some tx ∧ tx.transaction = some innerTx ∧ innerTx.message = none)) :
    determineTransactionType t a =
      .ok { type := "unknown", relatedAddresses := [], details := {} } := by
  rcases h with rfl | ⟨tx, rfl, htx⟩ | ⟨tx, innerTx, rfl, htx, hmsg⟩
  · rfl
  · simp [determineTransactionType, htx, defaultResult]
  · simp [determineTransactionType, htx, hmsg, defaultResult]

/-- Witness for C4 at the absent-transaction input. -/
theorem c4_degenerate_unknown_witness :
    ((none : Option ParsedTransaction) = none ∨
      (∃ tx, (none : Option ParsedTransaction) = some tx ∧ tx.transaction = none) ∨
      (∃ tx innerTx, (none : Option ParsedTransaction) = some tx ∧
        tx.transaction = some innerTx ∧ innerTx.message = none)) ∧
    determineTransactionType none "A" =
      .ok { type := "unknown", relatedAddresses := [], details := {} } :=
  ⟨Or.inl rfl, c4_degenerate_unknown none "A" (Or.inl rfl)⟩

/-- Claim C5: when the instruction count is 1, or at most 4 with a
compute-budget or nonce-advance instruction present, the located
system-program transfer from A to B with no token-balance changes classifies
as transfer, with the single counterparty B tagged sent when A is the query
address, and A tagged received when B (and not A) is the query address. The
addresses are nonempty strings. -/
theorem c5_native_transfer_classification (tx : ParsedTransaction) (innerTx : TxInner)
    (msg : Message) (instrs : List Instruction) (ix : Instruction) (a b q : String)
    (h1 : tx.transaction = some innerTx) (h2 : innerTx.message = some msg)
    (h3 : msg.instructions = some instrs)
    (h4 : nativeTransferGuard instrs = true)
    (h5 : instrs.find? isSystemTransferIx = some ix)
    (h6 : instructionSource ix = some a)
    (h7 : instructionDestination ix = some b)
    (h8 : hasTokenBalanceChanges tx.meta = false)
    (ha : a ≠ "") (hb : b ≠ "") :
    ∃ r, determineTransactionType (some tx) q = .ok r ∧ r.type = "transfer" ∧
      (a = q → r.relatedAddresses = [{ address := b, direction := "sent" }]) ∧
      (a ≠ q → b = q → r.relatedAddresses = [{ address := a, direction := "received" }]) := by
  refine ⟨transferResult ix q,
    determine_transfer_branch tx innerTx msg instrs ix q h1 h2 h3 h4 h5 h8, rfl, ?_, ?_⟩
  · intro haq
    subst haq
    simp [transferResult, transferRelated, h6, h7, jsTruthyStr, ha, hb]
  · intro haq hbq
    subst hbq
    simp [transferResult, transferRelated, h6, h7, jsTruthyStr, ha, hb, haq]

/-- Witness for C5: a native transfer bundled with one compute-budget
instruction, two instructions in total, classified as transfer. -/
theorem c5_native_transfer_classification_witness :
    nativeTransferGuard [cbIx, natTransferIx] = true ∧
    [cbIx, natTransferIx].find? isSystemTransferIx = some natTransferIx ∧
    hasTokenBalanceChanges natTransferTx.meta = false ∧
    ∃ r, determineTransactionType (some natTransferTx) "A" = .ok r ∧ r.type = "transfer" ∧
      ("A" = "A" → r.relatedAddresses = [{ address := "B", direction := "sent" }]) ∧
      ("A" ≠ "A" → "B" = "A" →
        r.relatedAddresses = [{ address := "A", direction := "received" }]) :=
  ⟨by decide, by decide, rfl,
    c5_native_transfer_classification natTransferTx
      { message := some { instructions := some [cbIx, natTransferIx] } }
      { instructions := some [cbIx, natTransferIx] }
      [cbIx, natTransferIx] natTransferIx "A" "B" "A"
      rfl rfl rfl (by decide) (by decide) rfl rfl rfl (by decide) (by decide)⟩

/-- Claim C6: a transaction not taken by the native-transfer rule that holds
a top-level token-program transfer or transferChecked classifies as swap when
any top-level instruction is in the swap allowlist, and as token_transfer
otherwise; the allowlist match takes precedence. -/
theorem c6_token_transfer_swap_precedence (tx : ParsedTransaction) (innerTx : TxInner)
    (msg : Message) (instrs : List Instruction) (q : String)
    (h1 : tx.transaction = some innerTx) (h2 : innerTx.message = some msg)
    (h3 : msg.instructions = some instrs)
    (h4 : ¬(nativeTransferGuard instrs = true ∧
            (instrs.find? isSystemTransferIx).isSome = true ∧
            hasTokenBalanceChanges tx.meta = false))
    (h5 : instrs.any isTokenTransferIx = true) :
    determineTransactionType (some tx) q =
      .ok { defaultResult with
            type := if instrs.any isSwapProgramIx then "swap" else "token_transfer" } := by
  rw [determine_reaches_rest tx innerTx msg instrs q h1 h2 h3 h4]
  simp only [classifyRest, h5, if_true]
  split <;> rfl

/-- Witness for C6: a token transfer next to a Jupiter allowlist call. -/
theorem c6_token_transfer_swap_precedence_witness :
    ¬(nativeTransferGuard [tokenTransferIxEx, jupiterIxEx] = true ∧
      ([tokenTransferIxEx, jupiterIxEx].find? isSystemTransferIx).isSome = true ∧
      hasTokenBalanceChanges tokenSwapTx.meta = false) ∧
    [tokenTransferIxEx, jupiterIxEx].any isTokenTransferIx = true ∧
    determineTransactionType (some tokenSwapTx) "Q" =
      .ok { defaultResult with
            type := if [tokenTransferIxEx, jupiterIxEx].any isSwapProgramIx then "swap"
                    else "token_transfer" } :=
  ⟨by decide, by decide,
    c6_token_transfer_swap_precedence tokenSwapTx
      { message := some { instructions := some [tokenTransferIxEx, jupiterIxEx] } }
      { instructions := some [tokenTransferIxEx, jupiterIxEx] }
      [tokenTransferIxEx, jupiterIxEx] "Q" rfl rfl rfl (by decide) (by decide)⟩

/-- Claim C8 (amended): for a transaction classified as transfer, a present
and nonzero lamports value is recorded in details as the lamports divided by
1e9, exactly; one billion lamports gives exactly 1. An absent or zero
lamports value is recorded as null, zero being falsy in the source. -/
theorem c8_amount_conversion (tx : ParsedTransaction) (innerTx : TxInner)
    (msg : Message) (instrs : List Instruction) (ix : Instruction) (q : String)
    (r : ClassificationResult)
    (h1 : tx.transaction = some innerTx) (h2 : innerTx.message = some msg)
    (h3 : msg.instructions = some instrs)
    (h4 : nativeTransferGuard instrs = true)
    (h5 : instrs.find? isSystemTransferIx = some ix)
    (h8 : hasTokenBalanceChanges tx.meta = false)
    (hr : determineTransactionType (some tx) q = .ok r) :
    (∀ l : ℚ, instructionLamports ix = some l → l ≠ 0 →
      r.details.amount = some (l / 1000000000)) ∧
    (instructionLamports ix = some 1000000000 → r.details.amount = some 1) ∧
    (instructionLamports ix = some 0 → r.details.amount = none) ∧
    (instructionLamports ix = none → r.details.amount = none) := by
  have heq : r = transferResult ix q := by
    have hb := determine_transfer_branch tx innerTx msg instrs ix q h1 h2 h3 h4 h5 h8
    rw [hb] at hr
    exact (Except.ok.inj hr).symm
  subst heq
  refine ⟨?_, ?_, ?_, ?_⟩
  · intro l hl hlz
    simp [transferResult, jsAmount, hl, hlz]
  · intro hl
    simp only [transferResult, jsAmount, hl]
    rw [if_neg (by simp)]
    norm_num
  · intro hl
    simp [transferResult, jsAmount, hl]
  · intro hl
    simp [transferResult, jsAmount, hl]

/-- Witness for C8 at a one-SOL transfer: one billion lamports is recorded
as exactly 1. -/
theorem c8_amount_conversion_witness :
    instructionLamports natTransferIx = some 1000000000 ∧
    determineTransactionType (some oneSolTx) "A" = .ok (transferResult natTransferIx "A") ∧
    (transferResult natTransferIx "A").details.amount = some 1 :=
  ⟨rfl, rfl,
    (c8_amount_conversion oneSolTx
      { message := some { instructions := some [natTransferIx] } }
      { instructions := some [natTransferIx] }
      [natTransferIx] natTransferIx "A" (transferResult natTransferIx "A")
      rfl rfl rfl (by decide) rfl rfl rfl).2.1 rfl⟩

/-- Counterexample to C8 as stated: a transfer of zero lamports records a
null amount, not the claimed zero divided by 1e9, since zero is falsy. -/
theorem c8_counterexample :
    (determineTransactionType (some zeroLamportsTx) "A").map
      (fun r => (r.type, r.details.amount)) = .ok ("transfer", none) ∧
    (none : Option ℚ) ≠ some ((0 : ℚ) / 1000000000) := by
  exact ⟨rfl, by simp⟩

/-- Claim C9 (amended): for a transaction not matched by the native-transfer,
token-transfer or direct swap-program rules, if the log lines joined with a
single space separator contain, case-insensitively, one of swap, exchange,
trade, buy or sell, the classification is swap. A keyword whose characters
span the boundary of two adjacent lines is not detected, because of the
space separator; see the counterexample. -/
theorem c9_log_fallback_swap (tx : ParsedTransaction) (innerTx : TxInner) (msg : Message)
    (instrs : List Instruction) (m : TransactionMeta) (logs : List String) (q : String)
    (h1 : tx.transaction = some innerTx) (h2 : innerTx.message = some msg)
    (h3 : msg.instructions = some instrs)
    (h4 : ¬(nativeTransferGuard instrs = true ∧
            (instrs.find? isSystemTransferIx).isSome = true ∧
            hasTokenBalanceChanges tx.meta = false))
    (h5 : instrs.any isTokenTransferIx = false)
    (h6 : instrs.any isSwapProgramIx = false)
    (h7 : tx.meta = some m) (h8 : m.logMessages = some logs)
    (h9 : logMessagesHit logs = true) :
    determineTransactionType (some tx) q = .ok { defaultResult with type := "swap" } := by
  rw [determine_reaches_rest tx innerTx msg instrs q h1 h2 h3 h4]
  simp [classifyRest, h5, h6, h7, h8, h9]

/-- Witness for C9: a log line mentioning Swap leads to the swap class. -/
theorem c9_log_fallback_swap_witness :
    logMessagesHit ["Program log: Swap executed"] = true ∧
    determineTransactionType (some swapLogTx) "Q" =
      .ok { defaultResult with type := "swap" } :=
  ⟨by decide,
    c9_log_fallback_swap swapLogTx
      { message := some { instructions := some [] } }
      { instructions := some [] } []
      { preTokenBalances := none, postTokenBalances := none,
        logMessages := some ["Program log: Swap executed"], innerInstructions := none }
      ["Program log: Swap executed"] "Q"
      rfl rfl rfl (by decide) rfl rfl rfl rfl (by decide)⟩

/-- Counterexample to C9 as stated: the keyword swap spans the boundary of
the two adjacent log lines sw and ap, so the plain concatenation contains it,
yet the source joins with a space and classifies the transaction unknown. -/
theorem c9_counterexample :
    strIncludes (lowerStr (String.join ["sw", "ap"])) "swap" = true ∧
    determineTransactionType (some boundaryLogTx) "Q" =
      .ok { type := "unknown", relatedAddresses := [], details := {} } :=
  ⟨by decide, rfl⟩

/-- Claim C10: a transaction classified as transfer whose located transfer
instruction lacks a source or lacks a destination yields no related address,
while details still records the source, destination and amount fields as
present or absent. -/
theorem c10_partial_transfer_no_related (tx : ParsedTransaction) (innerTx : TxInner)
    (msg : Message) (instrs : List Instruction) (ix : Instruction) (q : String)
    (h1 : tx.transaction = some innerTx) (h2 : innerTx.message = some msg)
    (h3 : msg.instructions = some instrs)
    (h4 : nativeTransferGuard instrs = true)
    (h5 : instrs.find? isSystemTransferIx = some ix)
    (h8 : hasTokenBalanceChanges tx.meta = false)
    (hmiss : instructionSource ix = none ∨ instructionDestination ix = none) :
    ∃ r, determineTransactionType (some tx) q = .ok r ∧
      r.type = "transfer" ∧ r.relatedAddresses = [] ∧
      r.details.source = instructionSource ix ∧
      r.details.destination = instructionDestination ix ∧
      r.details.amount = jsAmount (instructionLamports ix) := by
  refine ⟨transferResult ix q,
    determine_transfer_branch tx innerTx msg instrs ix q h1 h2 h3 h4 h5 h8,
    rfl, ?_, rfl, rfl, rfl⟩
  rcases hmiss with hm | hm <;>
    simp [transferResult, transferRelated, hm, jsTruthyStr]

/-- Witness for C10 at a transfer whose destination field is absent. -/
theorem c10_partial_transfer_no_related_witness :
    (instructionSource partialIx = none ∨ instructionDestination partialIx = none) ∧
    ∃ r, determineTransactionType (some partialTx) "Q" = .ok r ∧
      r.type = "transfer" ∧ r.relatedAddresses = [] ∧
      r.details.source = instructionSource partialIx ∧
      r.details.destination = instructionDestination partialIx ∧
      r.details.amount = jsAmount (instructionLamports partialIx) :=
  ⟨Or.inr rfl,
    c10_partial_transfer_no_related partialTx
      { message := some { instructions := some [partialIx] } }
      { instructions := some [partialIx] }
      [partialIx] partialIx "Q" rfl rfl rfl (by decide) rfl rfl (Or.inr rfl)⟩

end SolanaTools
